import Mathlib

/-
  Verification of the hospital_manager_backend bulk-ingestion core.

  Shallow embedding of:
    src/app/config.py     (settings)
    src/app/schemas.py    (HospitalResult, BulkResponse)
    src/app/processor.py  (parse_csv_bytes, create_hospital, process_rows)
    src/app/storage.py    (save_batch, get_batch, remove_batch)
    src/app/main.py       (bulk_upload, batch_details, delete_batch)

  Network traffic is modelled by oracles: a row-creation oracle maps the
  POSTed payload and the 0-based call number to what the remote service
  does (an HTTP response, or a raised transport/timeout exception), and
  the single batch-activation PATCH gets its own oracle value.  Functions
  that perform network calls additionally return how many calls they made,
  so call-count claims can be stated.  Wall-clock timing
  (processing_time_seconds) is not modelled.
-/

namespace HospitalManager

-- src/app/config.py: class Settings
def MAX_CSV_ROWS : Nat := 20
def CONCURRENCY : Nat := 5
def HTTP_TIMEOUT : Nat := 10

-- Python string primitives used by the code, as kernel-computable
-- functions on the character list (Lean's own String.trim / toLower /
-- endsWith get stuck under kernel reduction).

/-- Python str.strip(): drop whitespace from both ends. -/
def pyStrip (s : String) : String :=
  ⟨((s.data.dropWhile Char.isWhitespace).reverse.dropWhile Char.isWhitespace).reverse⟩

/-- Python str.lower(). -/
def pyLower (s : String) : String := ⟨s.data.map Char.toLower⟩

/-- Python str.endswith(suffix). -/
def pyEndsWith (s suffix : String) : Bool := suffix.data.isSuffixOf s.data

/-- src/app/schemas.py, class HospitalResult. `hospital_id` is
`data.get("id")` from the remote response body (may be absent). -/
structure HospitalResult where
  row : Nat
  hospital_id : Option String
  name : String
  status : String
  error : Option String
deriving Repr, DecidableEq

/-- A parsed CSV row as produced by `parse_csv_bytes`
(src/app/processor.py lines 29-32): the dict with keys name, address,
phone.  name and address are always present strings; phone may be None. -/
structure Row where
  name : String
  address : String
  phone : Option String
deriving Repr, DecidableEq

/-- The JSON payload POSTed by `create_hospital`
(src/app/processor.py lines 40-45). -/
structure Payload where
  name : String
  address : String
  phone : Option String
  creation_batch_id : String
deriving Repr, DecidableEq

/-- What one network call by the program observes: either an HTTP response
(status code, body text, and the body's `id` field when present), or a
raised exception (httpx transport error / timeout) carrying `str(e)`. -/
inductive CallResult where
  | resp (status : Nat) (text : String) (id : Option String)
  | exn (msg : String)
deriving Repr, DecidableEq

/-- An oracle answering successive `client.post` calls for one row:
argument 0 is the payload sent, argument 1 the 0-based call number. -/
def RowOracle : Type := Payload → Nat → CallResult

/-- src/app/processor.py lines 40-45: payload construction.
`row.get("phone") or None` maps the empty string to None. -/
def mkPayload (row : Row) (batch_id : String) : Payload :=
  { name := row.name
  , address := row.address
  , phone := match row.phone with
      | some p => if p = "" then none else some p
      | none => none
  , creation_batch_id := batch_id }

/-- src/app/processor.py lines 52-65: the `for attempt in range(2)` loop
inside the try block.  `fuel` is the number of loop iterations left,
`made` the number of POSTs already issued, `last` the status/text of the
previous (transient) response, referenced by the post-loop return at
line 63.  A raised exception propagates out of the loop to the `except`
at line 64 and becomes a `failed` outcome immediately: the model returns
right away without consuming further fuel. -/
def createLoop (row_idx : Nat) (pname : String) (oracle : Nat → CallResult) :
    Nat → Nat → Option (Nat × String) → HospitalResult × Nat
  | 0, made, last =>
    match last with
    | some (s, t) =>
      ({ row := row_idx, hospital_id := none, name := pname, status := "failed"
       , error := some ("HTTP " ++ toString s ++ ": " ++ t) }, made)
    | none =>
      -- unreachable from create_hospital: the loop always runs at least once
      ({ row := row_idx, hospital_id := none, name := pname, status := "failed"
       , error := none }, made)
  | fuel + 1, made, _ =>
    match oracle made with
    | .exn m =>
      ({ row := row_idx, hospital_id := none, name := pname, status := "failed"
       , error := some m }, made + 1)
    | .resp s t i =>
      if s = 200 ∨ s = 201 then
        ({ row := row_idx, hospital_id := i, name := pname, status := "created"
         , error := none }, made + 1)
      else if 400 ≤ s ∧ s < 500 then
        ({ row := row_idx, hospital_id := none, name := pname, status := "failed"
         , error := some ("HTTP " ++ toString s ++ ": " ++ t) }, made + 1)
      else
        createLoop row_idx pname oracle fuel (made + 1) (some (s, t))

/-- src/app/processor.py lines 35-65, `create_hospital`.  Returns the
HospitalResult together with the number of POST calls issued for this
row.  `not payload["name"]` on a string is the emptiness test; the
echoed `payload["name"] or ""` equals row.name in every branch. -/
def create_hospital (row_idx : Nat) (row : Row) (batch_id : String)
    (oracle : RowOracle) : HospitalResult × Nat :=
  let payload := mkPayload row batch_id
  if payload.name = "" ∨ payload.address = "" then
    ({ row := row_idx, hospital_id := none, name := payload.name
     , status := "validation_failed", error := some "name or address missing" }, 0)
  else
    createLoop row_idx payload.name (oracle payload) 2 0 none

-- ---------------------------------------------------------------------
-- src/app/processor.py lines 11-33: parse_csv_bytes.
-- The utf-8-sig decode and the stdlib csv split into records are outside
-- the model; the embedding starts from the list of records (each a list
-- of string cells), exactly the value of `rows = list(reader)`.
-- ---------------------------------------------------------------------

/-- Line 27: a record is skipped when it is empty or every cell strips to
the empty string. -/
def is_blank_record (r : List String) : Bool :=
  r.isEmpty || r.all (fun c => pyStrip c = "")

/-- Lines 29-32: the dict built for one retained record. -/
def record_to_row (r : List String) : Row :=
  { name := ((r.get? 0).map pyStrip).getD ""
  , address := ((r.get? 1).map pyStrip).getD ""
  , phone := (r.get? 2).map pyStrip }

/-- Lines 24-33: the accumulation loop over the (possibly de-headered)
records. -/
def parse_body (records : List (List String)) : List Row :=
  records.filterMap (fun r =>
    if is_blank_record r then none else some (record_to_row r))

/-- Line 21: `rows and rows[0] and rows[0][0].strip().lower() == "name"`.
For an empty first record `rows[0]` is falsy and headD supplies "",
which never equals "name". -/
def is_header (r : List String) : Bool :=
  pyLower (pyStrip (r.headD "")) = "name"

/-- src/app/processor.py lines 11-33, `parse_csv_bytes`, from the record
list onward. -/
def parse_csv_records (records : List (List String)) : List Row :=
  let rows :=
    match records with
    | [] => ([] : List (List String))
    | r0 :: rest => if is_header r0 then rest else r0 :: rest
  parse_body rows

-- ---------------------------------------------------------------------
-- src/app/processor.py lines 67-98: process_rows.
-- Results here are listed in input order; the code collects them in
-- completion order, which the claims below (counts, any-created,
-- activation) do not depend on.  The third component counts how many
-- activation PATCH calls (line 92) were issued.
-- ---------------------------------------------------------------------

/-- Per-row oracle table: first argument is the 1-based row index handed
to the worker at line 80. -/
def DispatchOracle : Type := Nat → RowOracle

/-- src/app/processor.py lines 76-83: the fan-out of `create_hospital`
over `enumerate(rows)`, each worker getting the 1-based index `i + 1`. -/
def dispatch_results (rows : List Row) (batch_id : String)
    (oracle : DispatchOracle) : List HospitalResult :=
  rows.enum.map
    (fun p => (create_hospital (p.1 + 1) p.2 batch_id (oracle (p.1 + 1))).1)

/-- src/app/processor.py lines 67-98, `process_rows`: the fan-out, then
the conditional best-effort activation PATCH (lines 85-95) whose failure
is swallowed.  `act` is what the PATCH would observe. -/
def process_rows (rows : List Row) (batch_id : String)
    (oracle : DispatchOracle) (act : CallResult) :
    List HospitalResult × Bool × Nat :=
  let results := dispatch_results rows batch_id oracle
  let created_any := results.any (fun r => r.status = "created")
  if created_any then
    match act with
    | .resp s _ _ => (results, decide (s = 200 ∨ s = 204), 1)
    | .exn _ => (results, false, 1)
  else
    (results, false, 0)

-- ---------------------------------------------------------------------
-- src/app/storage.py: the batch registry (module-level dict under a lock;
-- modelled by explicit state passing, values are the stored id lists).
-- ---------------------------------------------------------------------

def Registry : Type := String → Option (List (Option String))

def Registry.empty : Registry := fun _ => none

/-- src/app/storage.py lines 7-9: dict assignment, insert-or-overwrite. -/
def save_batch (batch_id : String) (hospital_ids : List (Option String))
    (st : Registry) : Registry :=
  fun k => if k = batch_id then some hospital_ids else st k

/-- src/app/storage.py lines 11-13: `_batches.get(batch_id)`. -/
def get_batch (batch_id : String) (st : Registry) : Option (List (Option String)) :=
  st batch_id

/-- src/app/storage.py lines 19-24: delete if present, reporting whether a
deletion happened, together with the resulting registry. -/
def remove_batch (batch_id : String) (st : Registry) : Bool × Registry :=
  match st batch_id with
  | some _ => (true, fun k => if k = batch_id then none else st k)
  | none => (false, st)

-- ---------------------------------------------------------------------
-- src/app/main.py: the boundary layer around the core.
-- ---------------------------------------------------------------------

/-- src/app/schemas.py, class BulkResponse (processing_time_seconds
omitted: wall-clock time is not modelled). -/
structure BulkResponse where
  batch_id : String
  total_hospitals : Nat
  processed_hospitals : Nat
  failed_hospitals : Nat
  batch_activated : Bool
  hospitals : List HospitalResult
deriving Repr, DecidableEq

/-- An HTTPException: status code and detail message. -/
def HttpError : Type := Nat × String

/-- src/app/main.py lines 48-81, `bulk_upload`.  `records` is the CSV
record list (see parse_csv_records); `batch_id` stands for the fresh
uuid4 of line 62; `st` is the registry before the call. -/
def bulk_upload (filename : String) (records : List (List String))
    (batch_id : String) (oracle : DispatchOracle) (act : CallResult)
    (st : Registry) : Except HttpError (BulkResponse × Registry) :=
  if ¬ (pyEndsWith (pyLower filename) ".csv") then
    .error (400, "Only CSV files allowed.")
  else
    let rows := parse_csv_records records
    if rows.length = 0 then
      .error (400, "CSV contains no valid rows")
    else if rows.length > MAX_CSV_ROWS then
      .error (400, "Max rows allowed: " ++ toString MAX_CSV_ROWS)
    else
      let r := process_rows rows batch_id oracle act
      let results := r.1
      let activated := r.2.1
      let created_ids := results.filterMap
        (fun h => if h.status = "created" then some h.hospital_id else none)
      let st' := save_batch batch_id created_ids st
      .ok
        ({ batch_id := batch_id
         , total_hospitals := rows.length
         , processed_hospitals := created_ids.length
         , failed_hospitals := rows.length - created_ids.length
         , batch_activated := activated
         , hospitals := results }, st')

/-- Python truthiness of `ids = _batches.get(batch_id)`: falsy when the
id is absent (None) and also when the stored list is empty. -/
def pyFalsy (o : Option (List (Option String))) : Bool :=
  match o with
  | none => true
  | some l => l.isEmpty

/-- src/app/main.py lines 88-101, `batch_details`.  `fetch` models one
`GET /hospitals/{hid}`: its body when the status is 200, none otherwise
(such rows are skipped). -/
def batch_details (batch_id : String) (st : Registry)
    (fetch : Option String → Option String) : Except HttpError (List String) :=
  let ids := get_batch batch_id st
  if pyFalsy ids then
    .error (404, "Batch not found")
  else
    .ok ((ids.getD []).filterMap fetch)

/-- src/app/main.py lines 119-133, `delete_batch`.  The per-id remote
DELETE calls have no observable effect on local state and are not
modelled; the result is the registry after `remove_batch`. -/
def delete_batch (batch_id : String) (st : Registry) :
    Except HttpError (Registry × Bool) :=
  let ids := get_batch batch_id st
  if pyFalsy ids then
    .error (404, "Batch not found")
  else
    .ok ((remove_batch batch_id st).2, true)

-- ---------------------------------------------------------------------
-- Scheduling model of the dispatch in process_rows
-- (src/app/processor.py lines 72-95).
--
-- The fan-out runs each row's worker under `async with sem` where
-- sem = asyncio.Semaphore(settings.CONCURRENCY) (lines 73, 77-79): a
-- worker's create_hospital call can only start while fewer than
-- CONCURRENCY calls are in flight.  The `for coro in as_completed(tasks)`
-- loop (lines 81-83) awaits every task, so the activation PATCH
-- (lines 85-95) can only run once no row call is pending or in flight.
-- States count rows not yet started / in flight / completed, plus
-- whether the activation call has been issued.
-- ---------------------------------------------------------------------

structure DispatchState where
  pending : Nat
  inFlight : Nat
  done : Nat
  activationIssued : Bool
deriving Repr, DecidableEq

/-- One scheduler step of the dispatch: a worker acquires the semaphore
and starts its call (only when a slot is free), a call completes and
releases its slot, or — after the join barrier — the single activation
call is issued. -/
inductive DStep : DispatchState → DispatchState → Prop where
  | start (s : DispatchState) (hp : 0 < s.pending) (hc : s.inFlight < CONCURRENCY) :
      DStep s ⟨s.pending - 1, s.inFlight + 1, s.done, s.activationIssued⟩
  | finish (s : DispatchState) (hf : 0 < s.inFlight) :
      DStep s ⟨s.pending, s.inFlight - 1, s.done + 1, s.activationIssued⟩
  | activate (s : DispatchState) (hp : s.pending = 0) (hf : s.inFlight = 0)
      (ha : s.activationIssued = false) :
      DStep s ⟨s.pending, s.inFlight, s.done, true⟩

/-- Dispatch entry for n rows: none started, activation not issued. -/
def initState (n : Nat) : DispatchState := ⟨n, 0, 0, false⟩

/-- States the dispatch of n rows can reach. -/
inductive DReach (n : Nat) : DispatchState → Prop where
  | init : DReach n (initState n)
  | step {s s' : DispatchState} : DReach n s → DStep s s' → DReach n s'

-- ---------------------------------------------------------------------
-- Helper lemmas
-- ---------------------------------------------------------------------

lemma mkPayload_name (row : Row) (batch_id : String) :
    (mkPayload row batch_id).name = row.name := rfl

lemma mkPayload_address (row : Row) (batch_id : String) :
    (mkPayload row batch_id).address = row.address := rfl

lemma process_rows_fst (rows : List Row) (batch_id : String)
    (oracle : DispatchOracle) (act : CallResult) :
    (process_rows rows batch_id oracle act).1 = dispatch_results rows batch_id oracle := by
  unfold process_rows
  cases h : (dispatch_results rows batch_id oracle).any (fun r => r.status = "created") <;>
    cases act <;> simp [h]

lemma dispatch_results_length (rows : List Row) (batch_id : String)
    (oracle : DispatchOracle) :
    (dispatch_results rows batch_id oracle).length = rows.length := by
  simp [dispatch_results]

lemma length_filterMap_ite {α β : Type} (l : List α) (p : α → Prop) [DecidablePred p]
    (f : α → β) :
    (l.filterMap (fun a => if p a then some (f a) else none)).length = l.countP (fun a => decide (p a)) := by
  induction l with
  | nil => simp
  | cons a l ih =>
    by_cases h : p a <;> simp [List.filterMap_cons, h, ih, List.countP_cons]

-- ---------------------------------------------------------------------
-- C4: validation gate
-- ---------------------------------------------------------------------

/-- C4: a row whose name or address is empty yields status
`validation_failed` with a null remote id and a descriptive error, and
the oracle is never consulted (zero network calls). -/
theorem create_hospital_validation_gate (row_idx : Nat) (row : Row)
    (batch_id : String) (oracle : RowOracle)
    (h : row.name = "" ∨ row.address = "") :
    create_hospital row_idx row batch_id oracle =
      ({ row := row_idx, hospital_id := none, name := row.name
       , status := "validation_failed"
       , error := some "name or address missing" }, 0) := by
  rcases h with h | h <;> simp [create_hospital, mkPayload, h]

theorem create_hospital_validation_gate_check :
    create_hospital 1 { name := "", address := "Addr2", phone := none } "b1"
        (fun _ _ => CallResult.exn "never called") =
      ({ row := 1, hospital_id := none, name := ""
       , status := "validation_failed"
       , error := some "name or address missing" }, 0) :=
  create_hospital_validation_gate 1 _ "b1" _ (Or.inl rfl)

-- ---------------------------------------------------------------------
-- C5: 4xx is terminal
-- ---------------------------------------------------------------------

/-- C5: a valid row whose first POST draws a 4xx response yields exactly
one network call and a `failed` outcome describing the HTTP status. -/
theorem create_hospital_client_error_terminal (row_idx : Nat) (row : Row)
    (batch_id : String) (oracle : RowOracle) (s : Nat) (t : String)
    (i : Option String)
    (hn : row.name ≠ "") (ha : row.address ≠ "")
    (ho : oracle (mkPayload row batch_id) 0 = CallResult.resp s t i)
    (h4 : 400 ≤ s) (h5 : s < 500) :
    create_hospital row_idx row batch_id oracle =
      ({ row := row_idx, hospital_id := none, name := row.name
       , status := "failed"
       , error := some ("HTTP " ++ toString s ++ ": " ++ t) }, 1) := by
  have h200 : ¬ (s = 200 ∨ s = 201) := by omega
  simp [create_hospital, mkPayload_name, mkPayload_address, hn, ha, createLoop,
    ho, h200, h4, h5]

theorem create_hospital_client_error_terminal_check :
    create_hospital 1 { name := "A", address := "Addr1", phone := none } "b1"
        (fun _ _ => CallResult.resp 404 "nope" none) =
      ({ row := 1, hospital_id := none, name := "A", status := "failed"
       , error := some ("HTTP " ++ toString 404 ++ ": " ++ "nope") }, 1) :=
  create_hospital_client_error_terminal 1 _ "b1" _ 404 "nope" none
    (by decide) (by decide) rfl (by decide) (by decide)

-- ---------------------------------------------------------------------
-- C1: a raised transport/timeout exception is NOT retried
-- ---------------------------------------------------------------------

/-- C1: evaluation of the code at the failing input.  For a valid row
whose first POST raises a transport/timeout exception, `create_hospital`
makes exactly 1 submission and returns `failed` with the exception text:
the try/except at lines 52-65 wraps the whole retry loop, so the
exception exits the loop and no second submission is attempted, although
the spec (and the comment above the loop) call such failures transient
and retried once. -/
theorem create_hospital_exception_no_retry :
    create_hospital 1 { name := "A", address := "Addr1", phone := none } "b1"
        (fun _ _ => CallResult.exn "ReadTimeout") =
      ({ row := 1, hospital_id := none, name := "A", status := "failed"
       , error := some "ReadTimeout" }, 1) := by
  decide

-- ---------------------------------------------------------------------
-- C6: registry round-trip
-- ---------------------------------------------------------------------

/-- C6: save then get returns exactly the saved list; save then remove
returns true and a later get reports not-found; remove on an absent id
returns false and leaves the registry unchanged. -/
theorem registry_roundtrip (st : Registry) (batch_id : String)
    (ids : List (Option String)) :
    get_batch batch_id (save_batch batch_id ids st) = some ids ∧
    (remove_batch batch_id (save_batch batch_id ids st)).1 = true ∧
    get_batch batch_id (remove_batch batch_id (save_batch batch_id ids st)).2 = none ∧
    (get_batch batch_id st = none → remove_batch batch_id st = (false, st)) := by
  refine ⟨?_, ?_, ?_, ?_⟩
  · simp [get_batch, save_batch]
  · simp [remove_batch, save_batch]
  · simp [get_batch, remove_batch, save_batch]
  · intro h
    simp [get_batch] at h
    simp [remove_batch, h]

theorem registry_roundtrip_check :
    get_batch "b" (save_batch "b" [some "h1"] Registry.empty) = some [some "h1"] ∧
    (remove_batch "b" (save_batch "b" [some "h1"] Registry.empty)).1 = true ∧
    get_batch "b" (remove_batch "b" (save_batch "b" [some "h1"] Registry.empty)).2 = none ∧
    remove_batch "b" Registry.empty = (false, Registry.empty) := by
  have h := registry_roundtrip Registry.empty "b" [some "h1"]
  exact ⟨h.1, h.2.1, h.2.2.1, h.2.2.2 rfl⟩

-- ---------------------------------------------------------------------
-- C10: at the boundary, an empty saved batch is indistinguishable
-- from an absent one
-- ---------------------------------------------------------------------

/-- C10: both boundary endpoints gate on Python truthiness of the stored
list, so a batch saved with the empty id list draws the same 404 "Batch
not found" as an id that was never saved, for details and for delete. -/
theorem empty_batch_indistinguishable (st : Registry) (batch_id : String)
    (fetch : Option String → Option String) (st₂ : Registry)
    (habs : get_batch batch_id st₂ = none) :
    batch_details batch_id (save_batch batch_id [] st) fetch =
      Except.error (404, "Batch not found") ∧
    delete_batch batch_id (save_batch batch_id [] st) =
      Except.error (404, "Batch not found") ∧
    batch_details batch_id st₂ fetch = Except.error (404, "Batch not found") ∧
    delete_batch batch_id st₂ = Except.error (404, "Batch not found") := by
  have habs' : st₂ batch_id = none := habs
  refine ⟨?_, ?_, ?_, ?_⟩ <;>
    simp [batch_details, delete_batch, get_batch, save_batch, pyFalsy, habs']

theorem empty_batch_indistinguishable_check :
    batch_details "b" (save_batch "b" [] Registry.empty) (fun _ => none) =
      Except.error (404, "Batch not found") ∧
    delete_batch "b" (save_batch "b" [] Registry.empty) =
      Except.error (404, "Batch not found") ∧
    batch_details "b" Registry.empty (fun _ => none) =
      Except.error (404, "Batch not found") ∧
    delete_batch "b" Registry.empty = Except.error (404, "Batch not found") :=
  empty_batch_indistinguishable Registry.empty "b" (fun _ => none) Registry.empty rfl

-- ---------------------------------------------------------------------
-- C2: activation call discipline
-- ---------------------------------------------------------------------

/-- C2: the activation PATCH is issued exactly once iff some outcome is
`created`; an exception raised by it is swallowed, leaving `activated`
false; with zero `created` outcomes no activation call is made and
`activated` is false; and the per-row outcome list never depends on the
activation call's fate (it cannot fail the ingestion). -/
theorem process_rows_activation (rows : List Row) (batch_id : String)
    (oracle : DispatchOracle) (act : CallResult) :
    ((process_rows rows batch_id oracle act).2.2 = 1 ↔
      (process_rows rows batch_id oracle act).1.any
        (fun r => r.status = "created") = true) ∧
    (∀ m, act = CallResult.exn m →
      (process_rows rows batch_id oracle act).2.1 = false) ∧
    ((process_rows rows batch_id oracle act).1.any
        (fun r => r.status = "created") = false →
      (process_rows rows batch_id oracle act).2.2 = 0 ∧
      (process_rows rows batch_id oracle act).2.1 = false) ∧
    (∀ act₂ : CallResult, (process_rows rows batch_id oracle act₂).1 =
      (process_rows rows batch_id oracle act).1) := by
  have hfst : ∀ a : CallResult,
      (process_rows rows batch_id oracle a).1 = dispatch_results rows batch_id oracle :=
    fun a => process_rows_fst rows batch_id oracle a
  refine ⟨?_, ?_, ?_, fun act₂ => (hfst act₂).trans (hfst act).symm⟩ <;>
    (cases hany : (dispatch_results rows batch_id oracle).any
        (fun r => r.status = "created") <;>
      cases act <;> simp [process_rows, hany, hfst])

theorem process_rows_activation_check :
    (process_rows [{ name := "A", address := "Addr1", phone := none }] "b1"
      (fun _ => fun _ _ => CallResult.resp 201 "" (some "h1"))
      (CallResult.exn "boom")).2.1 = false ∧
    (process_rows [{ name := "A", address := "Addr1", phone := none }] "b1"
      (fun _ => fun _ _ => CallResult.resp 201 "" (some "h1"))
      (CallResult.exn "boom")).2.2 = 1 := by
  have h := process_rows_activation
    [{ name := "A", address := "Addr1", phone := none }] "b1"
    (fun _ => fun _ _ => CallResult.resp 201 "" (some "h1"))
    (CallResult.exn "boom")
  exact ⟨h.2.1 "boom" rfl, h.1.mpr (by decide)⟩

-- ---------------------------------------------------------------------
-- Characterization of a successful bulk_upload (shared by C3 and C7)
-- ---------------------------------------------------------------------

lemma bulk_upload_ok_inv (filename : String) (records : List (List String))
    (batch_id : String) (oracle : DispatchOracle) (act : CallResult)
    (st : Registry) (resp : BulkResponse) (st' : Registry)
    (h : bulk_upload filename records batch_id oracle act st =
      Except.ok (resp, st')) :
    resp.batch_id = batch_id ∧
    resp.total_hospitals = (parse_csv_records records).length ∧
    resp.hospitals = dispatch_results (parse_csv_records records) batch_id oracle ∧
    resp.processed_hospitals = (resp.hospitals.filterMap
      (fun r => if r.status = "created" then some r.hospital_id else none)).length ∧
    resp.failed_hospitals = resp.total_hospitals - resp.processed_hospitals ∧
    st' = save_batch batch_id (resp.hospitals.filterMap
      (fun r => if r.status = "created" then some r.hospital_id else none)) st ∧
    1 ≤ resp.total_hospitals ∧ resp.total_hospitals ≤ MAX_CSV_ROWS := by
  simp only [bulk_upload] at h
  split at h
  · exact absurd h (by simp)
  · split at h
    next hc2 => exact absurd h (by simp)
    next hc2 =>
      split at h
      next hc3 => exact absurd h (by simp)
      next hc3 =>
        rw [Except.ok.injEq, Prod.mk.injEq] at h
        obtain ⟨hr, hs⟩ := h
        subst hr
        subst hs
        refine ⟨rfl, rfl, process_rows_fst _ _ _ _, ?_, rfl, ?_, ?_, ?_⟩
        · simp only [process_rows_fst]
        · simp only [process_rows_fst]
        · show 1 ≤ (parse_csv_records records).length
          omega
        · show (parse_csv_records records).length ≤ MAX_CSV_ROWS
          omega

-- ---------------------------------------------------------------------
-- C3: result counts
-- ---------------------------------------------------------------------

/-- C3: past the gates (1 ≤ N ≤ MAX_CSV_ROWS), the response reports
total_hospitals = N, processed_hospitals = the number of `created`
outcomes, failed_hospitals = N − processed, so processed + failed =
total. -/
theorem bulk_upload_counts (filename : String) (records : List (List String))
    (batch_id : String) (oracle : DispatchOracle) (act : CallResult)
    (st : Registry) (resp : BulkResponse) (st' : Registry)
    (h : bulk_upload filename records batch_id oracle act st =
      Except.ok (resp, st')) :
    resp.total_hospitals = (parse_csv_records records).length ∧
    1 ≤ resp.total_hospitals ∧
    resp.total_hospitals ≤ MAX_CSV_ROWS ∧
    resp.hospitals.length = resp.total_hospitals ∧
    resp.processed_hospitals = resp.hospitals.countP
      (fun r => decide (r.status = "created")) ∧
    resp.failed_hospitals = resp.total_hospitals - resp.processed_hospitals ∧
    resp.processed_hospitals + resp.failed_hospitals = resp.total_hospitals := by
  obtain ⟨hb, ht, hh, hp, hf, hs, hlo, hhi⟩ :=
    bulk_upload_ok_inv filename records batch_id oracle act st resp st' h
  have hlen : resp.hospitals.length = resp.total_hospitals := by
    rw [hh, ht, dispatch_results_length]
  have hcount : resp.processed_hospitals = resp.hospitals.countP
      (fun r => decide (r.status = "created")) := by
    rw [hp, length_filterMap_ite]
  have hle : resp.processed_hospitals ≤ resp.total_hospitals := by
    rw [hcount, ← hlen]
    exact List.countP_le_length _
  exact ⟨ht, hlo, hhi, hlen, hcount, hf, by omega⟩

theorem bulk_upload_counts_check :
    (1 : Nat) + 0 = 1 ∧
    ({ batch_id := "b1", total_hospitals := 1, processed_hospitals := 1
     , failed_hospitals := 0, batch_activated := true
     , hospitals := [{ row := 1, hospital_id := some "h1", name := "A"
                     , status := "created", error := none }] } :
        BulkResponse).processed_hospitals +
      ({ batch_id := "b1", total_hospitals := 1, processed_hospitals := 1
       , failed_hospitals := 0, batch_activated := true
       , hospitals := [{ row := 1, hospital_id := some "h1", name := "A"
                       , status := "created", error := none }] } :
          BulkResponse).failed_hospitals =
      ({ batch_id := "b1", total_hospitals := 1, processed_hospitals := 1
       , failed_hospitals := 0, batch_activated := true
       , hospitals := [{ row := 1, hospital_id := some "h1", name := "A"
                       , status := "created", error := none }] } :
          BulkResponse).total_hospitals := by
  have h := bulk_upload_counts "h.csv" [[" A ", "Addr1"]] "b1"
    (fun _ => fun _ _ => CallResult.resp 201 "" (some "h1"))
    (CallResult.resp 200 "" none) Registry.empty
    { batch_id := "b1", total_hospitals := 1, processed_hospitals := 1
    , failed_hospitals := 0, batch_activated := true
    , hospitals := [{ row := 1, hospital_id := some "h1", name := "A"
                    , status := "created", error := none }] }
    (save_batch "b1" [some "h1"] Registry.empty) rfl
  exact ⟨rfl, h.2.2.2.2.2.2⟩

-- ---------------------------------------------------------------------
-- C7: the batch is registered unconditionally, empty or not
-- ---------------------------------------------------------------------

/-- C7: every gated-through ingestion registers exactly one batch under
its id — the resulting registry is the input registry with only that key
changed, bound to the created ids — and when zero rows succeeded the
empty batch is still stored: get returns the empty list, and remove
succeeds. -/
theorem bulk_upload_registers_batch (filename : String)
    (records : List (List String)) (batch_id : String)
    (oracle : DispatchOracle) (act : CallResult) (st : Registry)
    (resp : BulkResponse) (st' : Registry)
    (h : bulk_upload filename records batch_id oracle act st =
      Except.ok (resp, st')) :
    get_batch batch_id st' = some (resp.hospitals.filterMap
      (fun r => if r.status = "created" then some r.hospital_id else none)) ∧
    (remove_batch batch_id st').1 = true ∧
    (∀ k, k ≠ batch_id → get_batch k st' = get_batch k st) ∧
    (resp.processed_hospitals = 0 → get_batch batch_id st' = some []) := by
  obtain ⟨hb, ht, hh, hp, hf, hs, hlo, hhi⟩ :=
    bulk_upload_ok_inv filename records batch_id oracle act st resp st' h
  subst hs
  refine ⟨?_, ?_, ?_, ?_⟩
  · simp [get_batch, save_batch]
  · simp [remove_batch, save_batch]
  · intro k hk
    simp [get_batch, save_batch, hk]
  · intro hp0
    have hlen0 : (resp.hospitals.filterMap
        (fun r => if r.status = "created" then some r.hospital_id else none)).length = 0 := by
      rw [← hp]
      exact hp0
    have he := List.length_eq_zero.mp hlen0
    simp [get_batch, save_batch, he]

theorem bulk_upload_registers_batch_check :
    get_batch "b1" (save_batch "b1" [] Registry.empty) = some [] ∧
    (remove_batch "b1" (save_batch "b1" [] Registry.empty)).1 = true := by
  have h := bulk_upload_registers_batch "h.csv" [["", "Addr2"]] "b1"
    (fun _ => fun _ _ => CallResult.exn "never called")
    (CallResult.exn "never called") Registry.empty
    { batch_id := "b1", total_hospitals := 1, processed_hospitals := 0
    , failed_hospitals := 1, batch_activated := false
    , hospitals := [{ row := 1, hospital_id := none, name := ""
                    , status := "validation_failed"
                    , error := some "name or address missing" }] }
    (save_batch "b1" [] Registry.empty) rfl
  exact ⟨h.2.2.2 rfl, h.2.1⟩

-- ---------------------------------------------------------------------
-- C8: parsing
-- ---------------------------------------------------------------------

/-- C8: the parser drops the first record iff its first cell, trimmed and
lower-cased, is the literal "name"; skips records whose cells are all
empty or whitespace-only; maps each retained record to trimmed cell 0 /
trimmed cell 1 (or "") / trimmed cell 2 (or null); and yields the empty
sequence for empty or header-only input (it is a total function, so no
cell content can make it fail). -/
theorem parse_csv_spec :
    parse_csv_records [] = [] ∧
    (∀ r0 rest, pyLower (pyStrip (r0.headD "")) = "name" →
      parse_csv_records (r0 :: rest) = parse_body rest) ∧
    (∀ r0 rest, ¬ (pyLower (pyStrip (r0.headD "")) = "name") →
      parse_csv_records (r0 :: rest) = parse_body (r0 :: rest)) ∧
    (∀ r rs, (r.all fun c => pyStrip c = "") = true →
      parse_body (r :: rs) = parse_body rs) ∧
    (∀ r rs, (r.all fun c => pyStrip c = "") = false →
      parse_body (r :: rs) =
        { name := ((r.get? 0).map pyStrip).getD ""
        , address := ((r.get? 1).map pyStrip).getD ""
        , phone := (r.get? 2).map pyStrip } :: parse_body rs) ∧
    (∀ r0, pyLower (pyStrip (r0.headD "")) = "name" → parse_csv_records [r0] = []) := by
  refine ⟨rfl, ?_, ?_, ?_, ?_, ?_⟩
  · intro r0 rest hh
    have hh' : pyLower (pyStrip (r0.head?.getD "")) = "name" := by simpa using hh
    simp [parse_csv_records, is_header, hh']
  · intro r0 rest hh
    have hh' : ¬ (pyLower (pyStrip (r0.head?.getD "")) = "name") := by simpa using hh
    simp [parse_csv_records, is_header, hh']
  · intro r rs hb
    have hcond : is_blank_record r = true := by simp [is_blank_record, hb]
    simp [parse_body, List.filterMap_cons, hcond]
  · intro r rs hb
    cases r with
    | nil => simp at hb
    | cons c cs =>
      have hcond : is_blank_record (c :: cs) = false := by
        simp [is_blank_record]
        simpa using hb
      simp [parse_body, List.filterMap_cons, hcond, record_to_row]
  · intro r0 hh
    have hh' : pyLower (pyStrip (r0.head?.getD "")) = "name" := by simpa using hh
    simp [parse_csv_records, is_header, hh', parse_body]

theorem parse_csv_spec_check :
    parse_csv_records [["name", "address", "phone"], [" Acme ", "123 St"]] =
      [{ name := "Acme", address := "123 St", phone := none }] ∧
    parse_csv_records [["name", "address", "phone"]] = [] := by
  obtain ⟨h1, h2, h3, h4, h5, h6⟩ := parse_csv_spec
  refine ⟨?_, h6 ["name", "address", "phone"] (by decide)⟩
  rw [h2 ["name", "address", "phone"] [[" Acme ", "123 St"]] (by decide)]
  decide

-- ---------------------------------------------------------------------
-- C9: concurrency ceiling and join barrier
-- ---------------------------------------------------------------------

lemma dstep_invariant {n : Nat} {s s' : DispatchState} (hstep : DStep s s')
    (ih : s.inFlight ≤ CONCURRENCY ∧ s.pending + s.inFlight + s.done = n ∧
      (s.activationIssued = true → s.pending = 0 ∧ s.inFlight = 0)) :
    s'.inFlight ≤ CONCURRENCY ∧ s'.pending + s'.inFlight + s'.done = n ∧
      (s'.activationIssued = true → s'.pending = 0 ∧ s'.inFlight = 0) := by
  obtain ⟨ih1, ih2, ih3⟩ := ih
  cases hstep with
  | start hp hc =>
    refine ⟨?_, ?_, ?_⟩
    · show s.inFlight + 1 ≤ CONCURRENCY
      omega
    · show s.pending - 1 + (s.inFlight + 1) + s.done = n
      omega
    · intro hact
      exact absurd (ih3 hact).1 (by omega)
  | finish hf =>
    refine ⟨?_, ?_, ?_⟩
    · show s.inFlight - 1 ≤ CONCURRENCY
      omega
    · show s.pending + (s.inFlight - 1) + (s.done + 1) = n
      omega
    · intro hact
      exact absurd (ih3 hact).2 (by omega)
  | activate hp hf ha =>
    exact ⟨ih1, ih2, fun _ => ⟨hp, hf⟩⟩

lemma dreach_invariant {n : Nat} {s : DispatchState} (h : DReach n s) :
    s.inFlight ≤ CONCURRENCY ∧ s.pending + s.inFlight + s.done = n ∧
      (s.activationIssued = true → s.pending = 0 ∧ s.inFlight = 0) := by
  induction h with
  | init => simp [initState, CONCURRENCY]
  | step hr hstep ih => exact dstep_invariant hstep ih

/-- C9: in every state the semaphore-gated dispatch can reach, at most
CONCURRENCY row calls are in flight (a worker wanting to start waits
instead), and whenever the activation call has been issued every one of
the n row calls has already completed (the join barrier). -/
theorem dispatch_concurrency_bound {n : Nat} {s : DispatchState}
    (h : DReach n s) :
    s.inFlight ≤ CONCURRENCY ∧ (s.activationIssued = true → s.done = n) := by
  obtain ⟨h1, h2, h3⟩ := dreach_invariant h
  refine ⟨h1, fun hact => ?_⟩
  obtain ⟨hp, hf⟩ := h3 hact
  omega

theorem dispatch_concurrency_bound_check :
    (⟨18, 2, 0, false⟩ : DispatchState).inFlight ≤ CONCURRENCY ∧
      ((⟨18, 2, 0, false⟩ : DispatchState).activationIssued = true →
        (⟨18, 2, 0, false⟩ : DispatchState).done = 20) := by
  have h1 : DReach 20 ⟨19, 1, 0, false⟩ :=
    DReach.step DReach.init (DStep.start (initState 20) (by decide) (by decide))
  have h2 : DReach 20 ⟨18, 2, 0, false⟩ :=
    DReach.step h1 (DStep.start ⟨19, 1, 0, false⟩ (by decide) (by decide))
  exact dispatch_concurrency_bound h2

end HospitalManager
